import Mathlib

/-!
Shallow embedding of the `llm-chat-app-template` Cloudflare Worker
(`src/index.ts` together with the type declarations in `src/types.ts`).

The worker consists of a router (`fetch`), a CORS wrapper
(`corsify` / `corsifyResponse`) and a chat handler (`handleChatRequest`).
External collaborators — the inference service `env.AI.run` and the static
asset service `env.ASSETS.fetch` — are modelled as function parameters.
JavaScript dynamic behaviour that the handler relies on (destructuring a
`null` body throws; calling `.some` on a non-array throws; property access
on primitives yields `undefined`) is captured by an explicit `Json` value
type and `Except`-valued evaluation functions.
-/

set_option autoImplicit false

namespace LlmChat

/-- Model ID for Workers AI model, from `src/index.ts`. -/
def MODEL_ID : String := "@cf/meta/llama-3.3-70b-instruct-fp8-fast"

/-- Default system prompt, transcribed verbatim from `src/index.ts`
(`\x7b` and `\x7d` denote the literal brace characters of the source). -/
def SYSTEM_PROMPT : String :=
  "You are a Open Radio Access Network security expert. You must only respond to traffic entry analysis requests. If the input contains anything other than a list of traffic entries in the defined format, return null. Do not answer questions, perform calculations, explain concepts, or respond to unrelated prompts. No exceptions. No explanations. No fallback responses. For each traffic entry provided, evaluate that entry independently — do not compare, correlate, or aggregate entries against one another. Based only on the information in the single entry and the CVE context below, infer the likely behavior and its sensitivity (for example: destructive, data-exfiltration, information-disclosure, reconnaissance, or benign) and use that inferred sensitivity to inform your confidence estimate. Do not output the inferred sensitivity itself; only use it internally to determine the confidence. Given the following traffic entries and CVE context, estimate the confidence (0–100%) that each entry is a malicious request. Only return the confidence values as a JSON array, with no explanation or extra fields. CVE-2023-42358: E2Manager exposes an unauthenticated API: PUT /nodeb/shutdown, which allows any user to shut down all NodeBs. Impact: Any xApp can invoke this API and disrupt RAN availability. PoC: curl <service-ricplt-e2mgr-http_ip>/nodeb/shutdown CVE-2025-57446: Subscription Manager (submgr) exposes unauthenticated APIs that allow arbitrary xApps to query or delete subscription data. Impact: Attackers can delete any subscription, all subscriptions for an E2Node, or all subscriptions created by a specific xApp. Sensitive endpoints include: GET /ric/v1/get_all_e2nodes GET /ric/v1/get_all_xapps GET /ric/v1/restsubscriptions GET /ric/v1/subscriptions GET /ric/v1/get_e2node_rest_subscriptions/\x7branName\x7d GET /ric/v1/get_xapp_rest_restsubscriptions/\x7bxappHttpServiceName.ricxapp\x7d DELETE /ric/v1/subscriptions/\x7brestSubId\x7d DELETE /ric/v1/delete_all_e2node_subscriptions/\x7branName\x7d DELETE /ric/v1/delete_all_xapp_subscriptions/\x7bxappHttpServiceName.ricxapp\x7d PoC: Use these endpoints with service-ricplt-submgr-rmr.ricplt as the host to perform attacks. Guideline: If the traffic matches any of the above endpoints or methods, especially unauthenticated destructive actions, assign a highest confidence score (100%). For sensitive queries, assign a high score (above 80%)."

/-- A JSON value, as produced by `request.json()`.  `obj` keeps the fields
in insertion order, matching JavaScript object semantics. -/
inductive Json where
  | null
  | bool (b : Bool)
  | num (n : Int)
  | str (s : String)
  | arr (elems : List Json)
  | obj (fields : List (String × Json))

/-- A chat message as declared in `src/types.ts`
(`ChatMessage = \x7b role; content \x7d`, both strings at runtime). -/
structure ChatMessage where
  role : String
  content : String
deriving DecidableEq

/-- The JSON object a `ChatMessage` parses from. -/
def ChatMessage.toJson (m : ChatMessage) : Json :=
  Json.obj [("role", Json.str m.role), ("content", Json.str m.content)]

/-- `s.startsWith(pre)` of JavaScript: `pre` is a prefix of `s`. -/
def strStartsWith (s pre : String) : Bool :=
  pre.data.isPrefixOf s.data

/-- ASCII lower-casing of one character, as used by HTTP header-name
normalisation. -/
def charLower (c : Char) : Char :=
  if 65 ≤ c.toNat ∧ c.toNat ≤ 90 then Char.ofNat (c.toNat + 32) else c

/-- The case-normalised form of a header name. -/
def lowerKey (s : String) : List Char :=
  s.data.map charLower

/-! ### Headers

The `Headers` object is modelled as an association list.  `Headers.set`
replaces any entry whose name matches case-insensitively and appends the
new pair; `Headers.get` is a case-insensitive first lookup. -/

/-- `headers.set(k, v)`: drop all entries with the same case-insensitive
name, then append the new pair. -/
def headerSet (hs : List (String × String)) (k v : String) :
    List (String × String) :=
  hs.filter (fun p => !(lowerKey p.1 == lowerKey k)) ++ [(k, v)]

/-- `headers.get(k)`: case-insensitive lookup of the first matching entry. -/
def headerGet (hs : List (String × String)) (k : String) : Option String :=
  (hs.find? (fun p => lowerKey p.1 == lowerKey k)).map (fun p => p.2)

/-- CORS header set used for allowing arbitrary sites, from `src/index.ts`. -/
def CORS_HEADERS : List (String × String) :=
  [("Access-Control-Allow-Origin", "*"),
   ("Access-Control-Allow-Methods", "GET, POST, PUT, DELETE, OPTIONS"),
   ("Access-Control-Allow-Headers", "Content-Type, Authorization")]

/-- `for (const [k, v] of Object.entries(CORS_HEADERS)) headers.set(k, v)`. -/
def setCorsHeaders (hs : List (String × String)) : List (String × String) :=
  CORS_HEADERS.foldl (fun acc kv => headerSet acc kv.1 kv.2) hs

/-- An HTTP response: status, headers, and body (`none` models a `null`
body; a streamed body is modelled by its eventual content, passed through
by reference and never inspected by this code). -/
structure Response where
  status : Nat
  headers : List (String × String)
  body : Option String
deriving DecidableEq

/-- The `ResponseInit` arguments used in `src/index.ts` (`status` and
`headers`). A plain `new Response(body, init)` defaults status to 200. -/
structure ResponseInit where
  status : Nat := 200
  headers : List (String × String) := []

/-- `corsifyResponse(body, init)`: wrap a newly created `Response` with
CORS headers. -/
def corsifyResponse (body : Option String) (init : ResponseInit) : Response :=
  { status := init.status
    headers := setCorsHeaders init.headers
    body := body }

/-- `corsify(response)`: clone an existing `Response` and add CORS headers,
preserving status and body. -/
def corsify (response : Response) : Response :=
  { status := response.status
    headers := setCorsHeaders response.headers
    body := response.body }

/-! ### Chat handler

`handleChatRequest` does `const \x7b messages = [] \x7d = await request.json()`,
injects the system prompt when `!messages.some(m => m.role === "system")`,
and calls `env.AI.run(MODEL_ID, \x7b messages, max_tokens: 1024 \x7d,
\x7b returnRawResponse: true \x7d)` inside a `try`/`catch`. -/

/-- Outcome of `await request.json()`: `error` if the promise rejects
(unparsable body), otherwise the parsed JSON value. -/
inductive ParseResult where
  | error
  | ok (j : Json)

/-- First field with the given name in a JavaScript object. -/
def lookupField (fields : List (String × Json)) (k : String) : Option Json :=
  (fields.find? (fun p => p.1 = k)).map (fun p => p.2)

/-- `const \x7b messages = [] \x7d = j` followed by the array-method uses of
`messages`.  Destructuring `null` throws a `TypeError`; a present
`messages` field that is not an array makes the subsequent
`messages.some(...)` call throw; a missing field (or a primitive body,
whose property access yields `undefined`) takes the `[]` default. -/
def getMessages : Json → Except Unit (List Json)
  | Json.null => Except.error ()
  | Json.obj fields =>
    match lookupField fields "messages" with
    | some (Json.arr elems) => Except.ok elems
    | some _ => Except.error ()
    | none => Except.ok []
  | _ => Except.ok []

/-- `msg.role === "system"` for one element of the messages array:
property access on `null` throws; on a non-object it yields `undefined`,
which is not `=== "system"`. -/
def roleIsSystem : Json → Except Unit Bool
  | Json.null => Except.error ()
  | Json.obj fields =>
    match lookupField fields "role" with
    | some (Json.str s) => Except.ok (s == "system")
    | _ => Except.ok false
  | _ => Except.ok false

/-- `messages.some(msg => msg.role === "system")`: left-to-right with
short-circuit on the first `true`; a throwing callback propagates. -/
def someRoleSystem : List Json → Except Unit Bool
  | [] => Except.ok false
  | m :: ms => do
    let b ← roleIsSystem m
    if b then pure true else someRoleSystem ms

/-- The message object `\x7b role: "system", content: SYSTEM_PROMPT \x7d`
that `messages.unshift(...)` prepends. -/
def systemMessage : Json :=
  Json.obj [("role", Json.str "system"), ("content", Json.str SYSTEM_PROMPT)]

/-- The argument record of one `env.AI.run` invocation: the model id, the
`messages` sequence, the `max_tokens` option, and the
`returnRawResponse` flag. -/
structure AiCall where
  model : String
  messages : List Json
  max_tokens : Nat
  returnRawResponse : Bool

/-- The inference collaborator `env.AI.run`, which may reject. -/
def AiRun : Type := AiCall → Except Unit Response

/-- Body of the `try` block of `handleChatRequest`: parse, default the
`messages` field, inject the system prompt when absent, and invoke the
inference collaborator once. -/
def chatAttempt (body : ParseResult) (aiRun : AiRun) : Except Unit Response := do
  let j ← match body with
    | ParseResult.error => Except.error ()
    | ParseResult.ok j => pure j
  let messages ← getMessages j
  let hasSystem ← someRoleSystem messages
  let messages := if hasSystem then messages else systemMessage :: messages
  aiRun { model := MODEL_ID, messages := messages, max_tokens := 1024,
          returnRawResponse := true }

/-- The 500 response built in the `catch` branch:
`corsifyResponse(JSON.stringify(\x7b error: "Failed to process request" \x7d),
\x7b status: 500, headers: \x7b "content-type": "application/json" \x7d \x7d)`. -/
def errorResponse500 : Response :=
  corsifyResponse (some "\x7b\"error\":\"Failed to process request\"\x7d")
    { status := 500, headers := [("content-type", "application/json")] }

/-- `handleChatRequest`: the `try` block, with every exception caught and
mapped to the generic 500 JSON error response. -/
def handleChatRequest (body : ParseResult) (aiRun : AiRun) : Response :=
  match chatAttempt body aiRun with
  | Except.ok r => r
  | Except.error _ => errorResponse500

/-! ### Router -/

/-- An inbound HTTP request: method, URL path, and the (lazily read)
outcome of parsing its body as JSON. -/
structure Request where
  method : String
  path : String
  body : ParseResult

/-- The static-asset collaborator `env.ASSETS.fetch`. -/
def Assets : Type := Request → Response

/-- The worker `fetch` handler: CORS preflight, asset passthrough,
`/api/chat` dispatch, 405 and 404, as in `src/index.ts`. -/
def fetchHandler (req : Request) (assets : Assets) (aiRun : AiRun) : Response :=
  if req.method = "OPTIONS" ∧ strStartsWith req.path "/api/" then
    corsifyResponse none { status := 204 }
  else if req.path = "/" ∨ ¬ strStartsWith req.path "/api/" then
    corsify (assets req)
  else if req.path = "/api/chat" then
    if req.method = "POST" then
      corsify (handleChatRequest req.body aiRun)
    else
      corsifyResponse (some "Method not allowed") { status := 405 }
  else
    corsifyResponse (some "Not found") { status := 404 }

/-- A sequence of independent requests handled by the runtime, in order:
each is processed by the same pure `fetch` handler with the same injected
environment bindings. -/
def serve (assets : Assets) (aiRun : AiRun) (reqs : List Request) :
    List Response :=
  reqs.map (fun r => fetchHandler r assets aiRun)

/-! ### Sample collaborators and requests, used to instantiate theorems on
concrete inputs -/

/-- A sample streaming response from the inference collaborator. -/
def sampleAiResponse : Response :=
  { status := 200, headers := [("x-model", "m")], body := some "stream" }

/-- An inference collaborator that always succeeds. -/
def sampleAi : AiRun := fun _ => Except.ok sampleAiResponse

/-- An asset collaborator with a recognizable response. -/
def sampleAssets : Assets :=
  fun _ => { status := 418, headers := [("x-asset", "1")], body := some "asset" }

/-- A well-formed chat POST request. -/
def samplePostChat : Request :=
  { method := "POST", path := "/api/chat"
    body := ParseResult.ok (Json.obj [("messages",
      Json.arr [ChatMessage.toJson { role := "user", content := "entry: x" }])]) }

/-! ### General lemmas about the embedding -/

/-- `Headers.get` after `Headers.set`: the set name now maps to the new
value and every other name is unchanged. -/
theorem headerGet_headerSet (hs : List (String × String)) (k v k' : String) :
    headerGet (headerSet hs k v) k' =
      if lowerKey k' = lowerKey k then some v else headerGet hs k' := by
  unfold headerGet headerSet
  rw [List.find?_append, List.find?_filter]
  by_cases h : lowerKey k' = lowerKey k
  · have h1 : List.find?
        (fun a => decide ((!(lowerKey a.1 == lowerKey k)) = true ∧
          (lowerKey a.1 == lowerKey k') = true)) hs = none := by
      apply List.find?_eq_none.mpr
      intro x _
      simp only [decide_eq_true_eq, Bool.not_eq_true', beq_iff_eq, beq_eq_false_iff_ne]
      rintro ⟨hne, heq⟩
      exact hne (heq.trans h)
    rw [h1]
    simp [List.find?, h]
  · have hfun : (fun a : String × String =>
        decide ((!(lowerKey a.1 == lowerKey k)) = true ∧
          (lowerKey a.1 == lowerKey k') = true))
        = fun p : String × String => lowerKey p.1 == lowerKey k' := by
      funext a
      by_cases ha : lowerKey a.1 = lowerKey k'
      · simp [ha, h]
      · simp [ha]
    rw [hfun]
    have h2 : ((lowerKey k : List Char) == lowerKey k') = false := by
      simp only [beq_eq_false_iff_ne]
      exact fun hc => h hc.symm
    simp [List.find?, h, h2]

/-- `Headers.get` after the CORS decoration loop. -/
theorem headerGet_setCorsHeaders (hs : List (String × String)) (k : String) :
    headerGet (setCorsHeaders hs) k =
      if lowerKey k = lowerKey "Access-Control-Allow-Headers" then
        some "Content-Type, Authorization"
      else if lowerKey k = lowerKey "Access-Control-Allow-Methods" then
        some "GET, POST, PUT, DELETE, OPTIONS"
      else if lowerKey k = lowerKey "Access-Control-Allow-Origin" then
        some "*"
      else headerGet hs k := by
  simp [setCorsHeaders, CORS_HEADERS, List.foldl, headerGet_headerSet]

/-- Whether a header name is (case-insensitively) one of the three CORS
headers the wrapper sets. -/
def isCorsHeaderName (k : String) : Prop :=
  lowerKey k = lowerKey "Access-Control-Allow-Origin" ∨
  lowerKey k = lowerKey "Access-Control-Allow-Methods" ∨
  lowerKey k = lowerKey "Access-Control-Allow-Headers"

instance (k : String) : Decidable (isCorsHeaderName k) := by
  unfold isCorsHeaderName
  infer_instance

theorem setCorsHeaders_origin (hs : List (String × String)) :
    headerGet (setCorsHeaders hs) "Access-Control-Allow-Origin" = some "*" := by
  rw [headerGet_setCorsHeaders]
  rfl

theorem setCorsHeaders_methods (hs : List (String × String)) :
    headerGet (setCorsHeaders hs) "Access-Control-Allow-Methods"
      = some "GET, POST, PUT, DELETE, OPTIONS" := by
  rw [headerGet_setCorsHeaders]
  rfl

theorem setCorsHeaders_allowHeaders (hs : List (String × String)) :
    headerGet (setCorsHeaders hs) "Access-Control-Allow-Headers"
      = some "Content-Type, Authorization" := by
  rw [headerGet_setCorsHeaders]
  rfl

theorem setCorsHeaders_other (hs : List (String × String)) (k : String)
    (h : ¬ isCorsHeaderName k) :
    headerGet (setCorsHeaders hs) k = headerGet hs k := by
  unfold isCorsHeaderName at h
  push_neg at h
  rw [headerGet_setCorsHeaders, if_neg h.2.2, if_neg h.2.1, if_neg h.1]

/-- Evaluating `msg.role === "system"` on a parsed `ChatMessage` object
never throws and tests its `role` field. -/
theorem roleIsSystem_toJson (m : ChatMessage) :
    roleIsSystem m.toJson = Except.ok (m.role == "system") := rfl

/-- `messages.some(msg => msg.role === "system")` on a parsed list of
`ChatMessage` objects computes `List.any`. -/
theorem someRoleSystem_map (ms : List ChatMessage) :
    someRoleSystem (ms.map ChatMessage.toJson)
      = Except.ok (ms.any (fun m => m.role == "system")) := by
  induction ms with
  | nil => rfl
  | cons m ms ih =>
    by_cases hm : m.role = "system"
    · simp [someRoleSystem, roleIsSystem_toJson, hm, Bind.bind, Except.bind, pure,
        Except.pure]
    · simp only [List.map_cons, someRoleSystem, roleIsSystem_toJson, List.any_cons]
      simp [hm, ih, Bind.bind, Except.bind]

/-- Reduction of the `try` block on a body whose `messages` field is a
parsed array of chat messages: the inference collaborator is invoked once,
with the prompt-prepended sequence exactly when no message has role
"system", with `max_tokens` 1024 and the raw-response flag. -/
theorem chatAttempt_chatMessages (ms : List ChatMessage) (aiRun : AiRun) :
    chatAttempt (ParseResult.ok (Json.obj
        [("messages", Json.arr (ms.map ChatMessage.toJson))])) aiRun
      = aiRun { model := MODEL_ID
                messages :=
                  if ms.any (fun m => m.role == "system") then
                    ms.map ChatMessage.toJson
                  else systemMessage :: ms.map ChatMessage.toJson
                max_tokens := 1024, returnRawResponse := true } := by
  simp only [chatAttempt, getMessages, lookupField, List.find?, Bind.bind,
    Except.bind, pure, Except.pure, decide_True, Option.map]
  rw [someRoleSystem_map]

/-! ### Claim theorems -/

/-- C1: for a chat body whose `messages` array has no element with role
"system", the sequence forwarded to the inference collaborator is the
fixed system-prompt message (role "system", content `SYSTEM_PROMPT`)
followed by all original messages in their original order. -/
theorem chat_injects_fixed_system_prompt (ms : List ChatMessage)
    (h : ∀ m ∈ ms, m.role ≠ "system") (aiRun : AiRun) :
    chatAttempt (ParseResult.ok (Json.obj
        [("messages", Json.arr (ms.map ChatMessage.toJson))])) aiRun
      = aiRun { model := MODEL_ID
                messages := systemMessage :: ms.map ChatMessage.toJson
                max_tokens := 1024, returnRawResponse := true }
    ∧ systemMessage
      = Json.obj [("role", Json.str "system"),
                  ("content", Json.str SYSTEM_PROMPT)] := by
  refine ⟨?_, rfl⟩
  rw [chatAttempt_chatMessages]
  have hany : ms.any (fun m => m.role == "system") = false := by
    simp only [List.any_eq_false, beq_iff_eq]
    exact h
  simp [hany]

/-- Witness for C1 at a one-element user conversation. -/
theorem chat_injects_fixed_system_prompt_instance :
    chatAttempt (ParseResult.ok (Json.obj
        [("messages", Json.arr
          ([({ role := "user", content := "entry: x" } : ChatMessage)].map
            ChatMessage.toJson))])) sampleAi
      = sampleAi { model := MODEL_ID
                   messages := systemMessage ::
                     [({ role := "user", content := "entry: x" } : ChatMessage)].map
                       ChatMessage.toJson
                   max_tokens := 1024, returnRawResponse := true }
    ∧ systemMessage
      = Json.obj [("role", Json.str "system"),
                  ("content", Json.str SYSTEM_PROMPT)] :=
  chat_injects_fixed_system_prompt
    [{ role := "user", content := "entry: x" }] (by decide) sampleAi

/-- C2: for a chat body whose `messages` array already contains an element
with role "system" (at any position), no message is injected and the
forwarded sequence equals the original sequence unchanged. -/
theorem chat_preserves_existing_system_message (ms : List ChatMessage)
    (h : ∃ m ∈ ms, m.role = "system") (aiRun : AiRun) :
    chatAttempt (ParseResult.ok (Json.obj
        [("messages", Json.arr (ms.map ChatMessage.toJson))])) aiRun
      = aiRun { model := MODEL_ID
                messages := ms.map ChatMessage.toJson
                max_tokens := 1024, returnRawResponse := true } := by
  rw [chatAttempt_chatMessages]
  have hany : ms.any (fun m => m.role == "system") = true := by
    simp only [List.any_eq_true, beq_iff_eq]
    exact h
  simp [hany]

/-- Witness for C2 at a custom-system-message conversation. -/
theorem chat_preserves_existing_system_message_instance :
    chatAttempt (ParseResult.ok (Json.obj
        [("messages", Json.arr
          ([({ role := "system", content := "custom" } : ChatMessage),
            { role := "user", content := "x" }].map ChatMessage.toJson))]))
        sampleAi
      = sampleAi { model := MODEL_ID
                   messages :=
                     [({ role := "system", content := "custom" } : ChatMessage),
                      { role := "user", content := "x" }].map ChatMessage.toJson
                   max_tokens := 1024, returnRawResponse := true } :=
  chat_preserves_existing_system_message
    [{ role := "system", content := "custom" }, { role := "user", content := "x" }]
    (by decide) sampleAi

/-- C3: every exception during body parsing or inference invocation is
caught and mapped to the fixed 500 response, whose body is exactly the
generic JSON error object and whose content-type is `application/json`;
when the `try` block succeeds, its response is returned as-is. -/
theorem chat_failures_return_500 :
    (∀ (aiRun : AiRun) (body : ParseResult),
        chatAttempt body aiRun = Except.error () →
        handleChatRequest body aiRun = errorResponse500)
    ∧ (∀ (aiRun : AiRun) (body : ParseResult) (r : Response),
        chatAttempt body aiRun = Except.ok r →
        handleChatRequest body aiRun = r)
    ∧ (∀ (aiRun : AiRun),
        handleChatRequest ParseResult.error aiRun = errorResponse500)
    ∧ errorResponse500.status = 500
    ∧ errorResponse500.body = some "\x7b\"error\":\"Failed to process request\"\x7d"
    ∧ headerGet errorResponse500.headers "content-type" = some "application/json" := by
  refine ⟨?_, ?_, ?_, rfl, rfl, by decide⟩
  · intro aiRun body h
    simp [handleChatRequest, h]
  · intro aiRun body r h
    simp [handleChatRequest, h]
  · intro aiRun
    rfl

/-- Witness for C3 at an unparsable body and at a successful run. -/
theorem chat_failures_return_500_instance :
    handleChatRequest ParseResult.error sampleAi = errorResponse500
    ∧ handleChatRequest (ParseResult.ok (Json.obj [])) sampleAi
        = sampleAiResponse :=
  ⟨chat_failures_return_500.1 sampleAi ParseResult.error rfl,
   chat_failures_return_500.2.1 sampleAi (ParseResult.ok (Json.obj []))
     sampleAiResponse rfl⟩

/-- C4: every OPTIONS request whose path starts with `/api/` — including
`/api/chat`, since this check precedes method dispatch — gets a 204
response with an empty body and all three CORS headers. -/
theorem options_preflight_204 (req : Request) (assets : Assets) (aiRun : AiRun)
    (hm : req.method = "OPTIONS") (hp : strStartsWith req.path "/api/" = true) :
    (fetchHandler req assets aiRun).status = 204
    ∧ (fetchHandler req assets aiRun).body = none
    ∧ headerGet (fetchHandler req assets aiRun).headers
        "Access-Control-Allow-Origin" = some "*"
    ∧ headerGet (fetchHandler req assets aiRun).headers
        "Access-Control-Allow-Methods" = some "GET, POST, PUT, DELETE, OPTIONS"
    ∧ headerGet (fetchHandler req assets aiRun).headers
        "Access-Control-Allow-Headers" = some "Content-Type, Authorization" := by
  have hb : fetchHandler req assets aiRun
      = corsifyResponse none { status := 204 } := by
    unfold fetchHandler
    rw [if_pos ⟨hm, hp⟩]
  rw [hb]
  exact ⟨rfl, rfl, setCorsHeaders_origin _, setCorsHeaders_methods _,
    setCorsHeaders_allowHeaders _⟩


/-- A CORS preflight request to the chat route. -/
def preflightChatReq : Request :=
  { method := "OPTIONS", path := "/api/chat", body := ParseResult.error }

/-- A GET to the chat route. -/
def getChatReq : Request :=
  { method := "GET", path := "/api/chat", body := ParseResult.error }

/-- A GET to an unknown API route. -/
def getUnknownReq : Request :=
  { method := "GET", path := "/api/unknown", body := ParseResult.error }

/-- A GET to the root path. -/
def getRootReq : Request :=
  { method := "GET", path := "/", body := ParseResult.error }

/-- Witness for C4 at `OPTIONS /api/chat`. -/
theorem options_preflight_204_instance :
    (fetchHandler preflightChatReq sampleAssets sampleAi).status = 204
    ∧ (fetchHandler preflightChatReq sampleAssets sampleAi).body = none
    ∧ headerGet (fetchHandler preflightChatReq sampleAssets sampleAi).headers
        "Access-Control-Allow-Origin" = some "*"
    ∧ headerGet (fetchHandler preflightChatReq sampleAssets sampleAi).headers
        "Access-Control-Allow-Methods" = some "GET, POST, PUT, DELETE, OPTIONS"
    ∧ headerGet (fetchHandler preflightChatReq sampleAssets sampleAi).headers
        "Access-Control-Allow-Headers" = some "Content-Type, Authorization" :=
  options_preflight_204 preflightChatReq sampleAssets sampleAi rfl (by decide)

/-- Counterexample to C5 as stated: `POST /api/chat` is a non-OPTIONS
request, yet its response is none of the three claimed outcomes — it is
not the (CORS-decorated) response of the asset collaborator, not a 405, and
not a 404, because this request is dispatched to the chat handler. -/
theorem router_three_cases_counterexample :
    fetchHandler samplePostChat sampleAssets sampleAi
        ≠ corsify (sampleAssets samplePostChat)
    ∧ (fetchHandler samplePostChat sampleAssets sampleAi).status ≠ 405
    ∧ (fetchHandler samplePostChat sampleAssets sampleAi).status ≠ 404
    ∧ samplePostChat.method ≠ "OPTIONS" := by
  decide

/-- C5 (amended): every non-OPTIONS request is dispatched by exactly one
of four mutually exclusive cases — asset passthrough for `/` and
non-`/api/` paths, the chat handler for `POST /api/chat`, 405 "Method not
allowed" for other methods on `/api/chat`, and 404 "Not found" for every
other `/api/` path. -/
theorem router_dispatch_cases (req : Request) (assets : Assets)
    (aiRun : AiRun) (h : req.method ≠ "OPTIONS") :
    (req.path = "/" ∨ strStartsWith req.path "/api/" = false →
        fetchHandler req assets aiRun = corsify (assets req))
    ∧ (req.path = "/api/chat" → req.method = "POST" →
        fetchHandler req assets aiRun
          = corsify (handleChatRequest req.body aiRun))
    ∧ (req.path = "/api/chat" → req.method ≠ "POST" →
        fetchHandler req assets aiRun
          = corsifyResponse (some "Method not allowed") { status := 405 })
    ∧ (strStartsWith req.path "/api/" = true → req.path ≠ "/api/chat" →
        fetchHandler req assets aiRun
          = corsifyResponse (some "Not found") { status := 404 }) := by
  obtain ⟨m, p, b⟩ := req
  replace h : m ≠ "OPTIONS" := h
  refine ⟨?_, ?_, ?_, ?_⟩
  · rintro (hc | hc)
    · replace hc : p = "/" := hc
      subst hc
      simp [fetchHandler, h]
    · replace hc : strStartsWith p "/api/" = false := hc
      simp [fetchHandler, h, hc]
  · intro hp hpost
    replace hp : p = "/api/chat" := hp
    replace hpost : m = "POST" := hpost
    subst hp
    simp [fetchHandler, h, hpost,
      (by decide : strStartsWith "/api/chat" "/api/" = true)]
  · intro hp hpost
    replace hp : p = "/api/chat" := hp
    replace hpost : m ≠ "POST" := hpost
    subst hp
    simp [fetchHandler, h, hpost,
      (by decide : strStartsWith "/api/chat" "/api/" = true)]
  · intro hs hne
    replace hs : strStartsWith p "/api/" = true := hs
    replace hne : p ≠ "/api/chat" := hne
    have hroot : p ≠ "/" := by
      intro hp
      rw [hp] at hs
      exact absurd hs (by decide)
    simp [fetchHandler, h, hroot, hs, hne]

/-- Witness for the amended C5 at a 404, a 405 and an asset request. -/
theorem router_dispatch_cases_instance :
    fetchHandler getUnknownReq sampleAssets sampleAi
      = corsifyResponse (some "Not found") { status := 404 }
    ∧ fetchHandler getChatReq sampleAssets sampleAi
      = corsifyResponse (some "Method not allowed") { status := 405 }
    ∧ fetchHandler getRootReq sampleAssets sampleAi
      = corsify (sampleAssets getRootReq) :=
  ⟨(router_dispatch_cases getUnknownReq sampleAssets sampleAi
      (by decide)).2.2.2 (by decide) (by decide),
   (router_dispatch_cases getChatReq sampleAssets sampleAi
      (by decide)).2.2.1 rfl (by decide),
   (router_dispatch_cases getRootReq sampleAssets sampleAi
      (by decide)).1 (Or.inl rfl)⟩

/-- The headers of every router response are produced by the CORS
decoration loop. -/
theorem fetchHandler_headers_setCors (req : Request) (assets : Assets)
    (aiRun : AiRun) :
    ∃ hs, (fetchHandler req assets aiRun).headers = setCorsHeaders hs := by
  unfold fetchHandler
  split
  · exact ⟨_, rfl⟩
  split
  · exact ⟨_, rfl⟩
  split
  · split
    · exact ⟨_, rfl⟩
    · exact ⟨_, rfl⟩
  · exact ⟨_, rfl⟩

/-- C6: the CORS wrapper sets the three fixed CORS headers while leaving
status and body unchanged (the body value is passed through as-is, never
read or buffered), and every outgoing router response — errors and
preflight included — carries the three headers. -/
theorem cors_wrapper_contract (resp : Response) :
    (corsify resp).status = resp.status
    ∧ (corsify resp).body = resp.body
    ∧ headerGet (corsify resp).headers "Access-Control-Allow-Origin"
        = some "*"
    ∧ headerGet (corsify resp).headers "Access-Control-Allow-Methods"
        = some "GET, POST, PUT, DELETE, OPTIONS"
    ∧ headerGet (corsify resp).headers "Access-Control-Allow-Headers"
        = some "Content-Type, Authorization"
    ∧ (∀ (body : Option String) (init : ResponseInit),
        (corsifyResponse body init).status = init.status
        ∧ (corsifyResponse body init).body = body
        ∧ headerGet (corsifyResponse body init).headers
            "Access-Control-Allow-Origin" = some "*"
        ∧ headerGet (corsifyResponse body init).headers
            "Access-Control-Allow-Methods" = some "GET, POST, PUT, DELETE, OPTIONS"
        ∧ headerGet (corsifyResponse body init).headers
            "Access-Control-Allow-Headers" = some "Content-Type, Authorization")
    ∧ (∀ (req : Request) (assets : Assets) (aiRun : AiRun),
        headerGet (fetchHandler req assets aiRun).headers
            "Access-Control-Allow-Origin" = some "*"
        ∧ headerGet (fetchHandler req assets aiRun).headers
            "Access-Control-Allow-Methods" = some "GET, POST, PUT, DELETE, OPTIONS"
        ∧ headerGet (fetchHandler req assets aiRun).headers
            "Access-Control-Allow-Headers" = some "Content-Type, Authorization") := by
  refine ⟨rfl, rfl, setCorsHeaders_origin _, setCorsHeaders_methods _,
    setCorsHeaders_allowHeaders _, ?_, ?_⟩
  · intro body init
    exact ⟨rfl, rfl, setCorsHeaders_origin _, setCorsHeaders_methods _,
      setCorsHeaders_allowHeaders _⟩
  · intro req assets aiRun
    obtain ⟨hs, hhs⟩ := fetchHandler_headers_setCors req assets aiRun
    rw [hhs]
    exact ⟨setCorsHeaders_origin _, setCorsHeaders_methods _,
      setCorsHeaders_allowHeaders _⟩

/-- C7: a successfully parsed chat body with no `messages` field defaults
to the empty sequence, the inference collaborator is invoked exactly once
— with the (possibly prompt-prepended) message sequence, `max_tokens`
exactly 1024, and the raw-response flag — and its response object is
returned unmodified.  The single invocation and its arguments are pinned
by the equations holding for every collaborator `aiRun`. -/
theorem chat_inference_call_contract :
    (∀ (fields : List (String × Json)) (aiRun : AiRun),
        lookupField fields "messages" = none →
        chatAttempt (ParseResult.ok (Json.obj fields)) aiRun
          = aiRun { model := MODEL_ID, messages := [systemMessage],
                    max_tokens := 1024, returnRawResponse := true })
    ∧ (∀ (ms : List ChatMessage) (aiRun : AiRun),
        chatAttempt (ParseResult.ok (Json.obj
            [("messages", Json.arr (ms.map ChatMessage.toJson))])) aiRun
          = aiRun { model := MODEL_ID
                    messages :=
                      if ms.any (fun m => m.role == "system") then
                        ms.map ChatMessage.toJson
                      else systemMessage :: ms.map ChatMessage.toJson
                    max_tokens := 1024, returnRawResponse := true })
    ∧ (∀ (body : ParseResult) (aiRun : AiRun) (r : Response),
        chatAttempt body aiRun = Except.ok r →
        handleChatRequest body aiRun = r) := by
  refine ⟨?_, chatAttempt_chatMessages, ?_⟩
  · intro fields aiRun h
    have hg : getMessages (Json.obj fields) = Except.ok [] := by
      simp [getMessages, h]
    simp [chatAttempt, hg, Bind.bind, Except.bind, pure, Except.pure,
      someRoleSystem]
  · intro body aiRun r h
    simp [handleChatRequest, h]

/-- Witness for C7: a body with no `messages` field leads to a single
inference call on just the injected system prompt. -/
theorem chat_inference_call_contract_instance :
    chatAttempt (ParseResult.ok (Json.obj [])) sampleAi
      = sampleAi { model := MODEL_ID, messages := [systemMessage],
                   max_tokens := 1024, returnRawResponse := true } :=
  chat_inference_call_contract.1 [] sampleAi rfl

/-- C8: request handling is pure — the handler reads only its request,
the fixed constants and the injected bindings, and writes no shared
state (the only mutation in the source, `messages.unshift`, acts on the
per-request parsed array).  Hence in a sequence of requests each response
is the one the same request gets in isolation: handling the first request
leaves nothing observable to the second. -/
theorem requests_handled_independently (assets : Assets) (aiRun : AiRun)
    (r1 r2 : Request) :
    serve assets aiRun [r1, r2]
      = [fetchHandler r1 assets aiRun, fetchHandler r2 assets aiRun]
    ∧ (serve assets aiRun [r1, r2]).drop 1 = serve assets aiRun [r2]
    ∧ serve assets aiRun [r1, r1]
      = [fetchHandler r1 assets aiRun, fetchHandler r1 assets aiRun] :=
  ⟨rfl, rfl, rfl⟩

/-- C9: a body that is JSON `null`, or whose `messages` field is present
but not an array, makes the destructuring or the `.some`/`.unshift` calls
throw, so the handler returns the 500 error response instead of treating
the body as an empty message sequence. -/
theorem invalid_body_shape_returns_500 :
    (∀ (aiRun : AiRun),
        handleChatRequest (ParseResult.ok Json.null) aiRun = errorResponse500)
    ∧ (∀ (fields : List (String × Json)) (v : Json) (aiRun : AiRun),
        lookupField fields "messages" = some v →
        (∀ xs, v ≠ Json.arr xs) →
        handleChatRequest (ParseResult.ok (Json.obj fields)) aiRun
          = errorResponse500) := by
  constructor
  · intro aiRun
    rfl
  · intro fields v aiRun hv hna
    have hg : getMessages (Json.obj fields) = Except.error () := by
      cases v with
      | arr xs => exact absurd rfl (hna xs)
      | null => simp [getMessages, hv]
      | bool b => simp [getMessages, hv]
      | num n => simp [getMessages, hv]
      | str s => simp [getMessages, hv]
      | obj fs => simp [getMessages, hv]
    simp [handleChatRequest, chatAttempt, hg, Bind.bind, Except.bind, pure,
      Except.pure]

/-- Witness for C9 at a `null` body and at a string-valued `messages`. -/
theorem invalid_body_shape_returns_500_instance :
    handleChatRequest (ParseResult.ok Json.null) sampleAi = errorResponse500
    ∧ handleChatRequest
        (ParseResult.ok (Json.obj [("messages", Json.str "x")])) sampleAi
      = errorResponse500 :=
  ⟨invalid_body_shape_returns_500.1 sampleAi,
   invalid_body_shape_returns_500.2 [("messages", Json.str "x")]
     (Json.str "x") sampleAi rfl (fun _xs hx => Json.noConfusion hx)⟩

/-- A response carrying a pre-existing CORS header and a custom header. -/
def preloadedResponse : Response :=
  { status := 200
    headers := [("Access-Control-Allow-Origin", "https://evil.example"),
                ("X-Custom", "v")]
    body := none }

/-- C10: the CORS wrapper preserves every header other than the three
CORS headers with its original value, and overwrites any pre-existing
values of the three CORS headers with the fixed ones. -/
theorem cors_overwrites_and_preserves (resp : Response) (k : String)
    (h : ¬ isCorsHeaderName k) :
    headerGet (corsify resp).headers k = headerGet resp.headers k
    ∧ headerGet (corsify resp).headers "Access-Control-Allow-Origin"
        = some "*"
    ∧ headerGet (corsify resp).headers "Access-Control-Allow-Methods"
        = some "GET, POST, PUT, DELETE, OPTIONS"
    ∧ headerGet (corsify resp).headers "Access-Control-Allow-Headers"
        = some "Content-Type, Authorization" :=
  ⟨setCorsHeaders_other _ _ h, setCorsHeaders_origin _,
   setCorsHeaders_methods _, setCorsHeaders_allowHeaders _⟩

/-- Witness for C10: the custom header survives unchanged while the
pre-existing `Access-Control-Allow-Origin` value is overwritten. -/
theorem cors_overwrites_and_preserves_instance :
    headerGet (corsify preloadedResponse).headers "X-Custom"
      = headerGet preloadedResponse.headers "X-Custom"
    ∧ headerGet (corsify preloadedResponse).headers
        "Access-Control-Allow-Origin" = some "*"
    ∧ headerGet (corsify preloadedResponse).headers
        "Access-Control-Allow-Methods" = some "GET, POST, PUT, DELETE, OPTIONS"
    ∧ headerGet (corsify preloadedResponse).headers
        "Access-Control-Allow-Headers" = some "Content-Type, Authorization" :=
  cors_overwrites_and_preserves preloadedResponse "X-Custom" (by decide)

end LlmChat
